import Mathlib

/-!
Shallow embedding of `src/app.py`, a minimal blog-comment HTTP service:
a JSON file store mapping post ids to comment lists, a relative-time
formatter, and GET/POST handlers for `/api/comments`.

Modelling conventions:
* JSON values that this service manipulates are strings, nulls and
  booleans (`Val`); JSON objects are ordered association lists (`Obj`),
  mirroring Python dicts (insertion order, `get` with default,
  assignment by `objSet`).
* The store (`data/comments.json` read by `load_comments` and written
  by `save_comments`) is passed explicitly as a map from post id to
  comment list, with `comments.get(post_id, [])` semantics.
* Python exceptions in embedded code are `Except String`; an exception
  that escapes the handler (no HTTP response written) is `crashed`.
* `datetime.now().isoformat()` and `str(uuid.uuid4())` enter as
  parameters; `(now - fromisoformat(ts)).total_seconds()` enters as a
  function `elapsed : String → ℚ` on timestamps.
-/

namespace BlogApp

/-- JSON values as this service stores and receives them. -/
inductive Val where
  | null : Val
  | str : String → Val
  | bool : Bool → Val
deriving DecidableEq

/-- A JSON object / Python dict: ordered association list. -/
abbrev Obj := List (String × Val)

/-- A comment record, as the dict built at app.py lines 101-111. -/
abbrev Comment := List (String × Val)

/-- The comment store: post id to ordered comment list, with Python's
`comments.get(post_id, [])` default built in. -/
abbrev Store := String → List Comment

/-- Python `d.get(k, dflt)`. -/
def objGet (d : Obj) (k : String) (dflt : Val) : Val :=
  match d.find? (fun p => p.1 == k) with
  | some p => p.2
  | none => dflt

/-- Python `d[k] = v`: overwrite in place when the key exists, else
append the new key at the end (dict insertion order). -/
def objSet (d : Obj) (k : String) (v : Val) : Obj :=
  if d.any (fun p => p.1 == k) then
    d.map (fun p => if p.1 == k then (p.1, v) else p)
  else d ++ [(k, v)]

/-- Field lookup on a comment, for stating properties. -/
def cGet (c : Comment) (k : String) : Option Val :=
  (c.find? (fun p => p.1 == k)).map Prod.snd

/-- Python truthiness of the values in play: `None` and `""` are falsy. -/
def truthy : Val → Bool
  | .null => false
  | .str s => !(s == "")
  | .bool b => b

/-- Python `s.strip()`: remove leading and trailing whitespace
characters (over the characters of the string). -/
def pyStrip (s : String) : String :=
  ⟨((s.data.dropWhile Char.isWhitespace).reverse.dropWhile Char.isWhitespace).reverse⟩

/-- Python `s[:n]`: the first `n` characters (code points). -/
def pyTake (s : String) (n : Nat) : String :=
  ⟨s.data.take n⟩

/-- Calling `.strip()` on a JSON value: succeeds with the
whitespace-stripped string on strings, raises `AttributeError` on
`None` (and on booleans). -/
def stripVal : Val → Except String String
  | .str s => .ok (pyStrip s)
  | .null => .error "'NoneType' object has no attribute 'strip'"
  | .bool _ => .error "'bool' object has no attribute 'strip'"

/-- Python `int()` on a rational: truncation toward zero. -/
def pyInt (q : ℚ) : ℤ := if 0 ≤ q then ⌊q⌋ else ⌈q⌉

/-- `format_time_ago` (app.py lines 32-52), as a function of the
elapsed seconds `(now - fromisoformat(timestamp)).total_seconds()`. -/
def format_time_ago (seconds : ℚ) : String :=
  if seconds < 60 then "just now"
  else if seconds < 3600 then
    let mins := pyInt (seconds / 60)
    toString mins ++ " minute" ++ (if mins > 1 then "s" else "") ++ " ago"
  else if seconds < 86400 then
    let hours := pyInt (seconds / 3600)
    toString hours ++ " hour" ++ (if hours > 1 then "s" else "") ++ " ago"
  else if seconds < 604800 then
    let days := pyInt (seconds / 86400)
    toString days ++ " day" ++ (if days > 1 then "s" else "") ++ " ago"
  else
    let weeks := pyInt (seconds / 604800)
    toString weeks ++ " week" ++ (if weeks > 1 then "s" else "") ++ " ago"

/-- Construct the new comment dict (app.py lines 101-111).  Fields are
evaluated in source order, and the first `.strip()` applied to a
non-string value raises, short-circuiting as `Except.error` (caught by
the handler's generic `except` → 500).  `newId` is `str(uuid.uuid4())`,
`ts` is `datetime.now().isoformat()`. -/
def buildComment (data : Obj) (newId ts : String) : Except String Comment :=
  match stripVal (objGet data "author" (.str "")) with
  | .error e => .error e
  | .ok author =>
    match stripVal (objGet data "email" (.str "")) with
    | .error e => .error e
    | .ok email =>
      match (if truthy (objGet data "website" .null) then
          match stripVal (objGet data "website" (.str "")) with
          | .error e => Except.error e
          | .ok w => Except.ok (Val.str (pyTake w 200))
        else Except.ok Val.null : Except String Val) with
      | .error e => .error e
      | .ok website =>
        match stripVal (objGet data "text" (.str "")) with
        | .error e => .error e
        | .ok text =>
          match stripVal (objGet data "post_id" (.str "")) with
          | .error e => .error e
          | .ok pid =>
            .ok [("id", Val.str (pyTake newId 8)),
              ("author", Val.str (pyTake author 100)),
              ("email", Val.str (pyTake email 100)),
              ("website", website),
              ("text", Val.str (pyTake text 5000)),
              ("timestamp", Val.str ts),
              ("post_id", Val.str (pyTake pid 100)),
              ("parent_id", objGet data "parent_id" .null),
              ("approved", Val.bool true)]

/-- `post_id = comment['post_id']` (app.py line 115); total, with a
default never reached on comments built by `buildComment`. -/
def commentPostId (c : Comment) : String :=
  match objGet c "post_id" .null with
  | .str s => s
  | _ => ""

/-- App.py lines 117-121: create the post's list if absent, append the
comment, persist. -/
def storeAppend (s : Store) (pid : String) (c : Comment) : Store :=
  fun k => if k = pid then s pid ++ [c] else s k

/-- The response of the POST handler's `/api/comments` branch. -/
inductive PostResponse where
  | created : Comment → PostResponse
  | err : Nat → String → PostResponse
deriving DecidableEq

/-- App.py lines 92-135: the `try` block of `do_POST` on
`/api/comments`.  `parsed = none` models `json.loads` raising
`JSONDecodeError` (→ 400 "Invalid JSON").  Returns the response paired
with the persisted store; `save_comments` runs at line 121, before
`time_formatted` is attached to the response object at line 124, so the
persisted comment lacks that field. -/
def do_POST (parsed : Option Obj) (newId ts : String) (store : Store) :
    PostResponse × Store :=
  match parsed with
  | none => (.err 400 "Invalid JSON", store)
  | some data =>
    if !truthy (objGet data "author" .null) || !truthy (objGet data "text" .null)
        || !truthy (objGet data "post_id" .null) then
      (.err 400 "Missing required fields", store)
    else
      match buildComment data newId ts with
      | .error e => (.err 500 e, store)
      | .ok c =>
        (.created (objSet c "time_formatted" (.str "just now")),
          storeAppend store (commentPostId c) c)

/-- Outcome of the whole POST handler, body reading included. -/
inductive PostOutcome where
  | response : PostResponse → Store → PostOutcome
  | crashed : String → PostOutcome

/-- App.py lines 88-136, the `/api/comments` POST branch including step
1: `recv` is the result of `self.rfile.read(content_length).decode('utf-8')`
(lines 89-90).  Those lines sit OUTSIDE the `try` that starts at line
92, so an exception there (e.g. `UnicodeDecodeError`) propagates out of
the handler and no HTTP response is written: `crashed`.  `parse` models
`json.loads` on the decoded body, `none` meaning `JSONDecodeError`. -/
def handlePost (recv : Except String String) (parse : String → Option Obj)
    (newId ts : String) (store : Store) : PostOutcome :=
  match recv with
  | .error e => .crashed e
  | .ok body =>
    let r := do_POST (parse body) newId ts store
    .response r.1 r.2

/-- App.py lines 71-72: attach
`comment['time_formatted'] = format_time_ago(comment['timestamp'])`.
A comment whose `timestamp` is absent or not a string raises
(`KeyError` / `TypeError` in `fromisoformat`), modelled as `none`;
`elapsed ts` stands for `(datetime.now() - fromisoformat(ts)).total_seconds()`. -/
def renderComment (elapsed : String → ℚ) (c : Comment) : Option Comment :=
  match objGet c "timestamp" .null with
  | .str ts => some (objSet c "time_formatted" (.str (format_time_ago (elapsed ts))))
  | _ => none

/-- The `for comment in post_comments` loop of app.py lines 71-72. -/
def renderAll (elapsed : String → ℚ) : List Comment → Option (List Comment)
  | [] => some []
  | c :: cs =>
    match renderComment elapsed c, renderAll elapsed cs with
    | some r, some rs => some (r :: rs)
    | _, _ => none

/-- Outcome of the GET handler. -/
inductive GetOutcome where
  | static : GetOutcome
  | ok : Nat → String → String → List Comment → GetOutcome
  | crashed : String → GetOutcome
deriving DecidableEq

/-- App.py lines 57-82 (`do_GET`).  `post` is the raw `post` query
parameter: `none` when absent or blank (`parse_qs` drops blank values,
and `query_params.get('post', [''])[0]` then yields `''`).  An empty
effective post id falls through to `SimpleHTTPRequestHandler.do_GET`
(`static`); otherwise the store's list for the post id (default `[]`)
is rendered and served as 200 `application/json` with
`Access-Control-Allow-Origin: *`. -/
def do_GET (path : String) (post : Option String) (store : Store)
    (elapsed : String → ℚ) : GetOutcome :=
  if path = "/api/comments" then
    let post_id := post.getD ""
    if post_id ≠ "" then
      match renderAll elapsed (store post_id) with
      | some rendered => .ok 200 "application/json" "*" rendered
      | none => .crashed "KeyError: 'timestamp'"
    else .static
  else .static

/-- The nine field names of a persisted comment, in the construction
order of app.py lines 101-111. -/
def commentKeys : List String :=
  ["id", "author", "email", "website", "text", "timestamp", "post_id",
    "parent_id", "approved"]

/-- A stored comment has a string `timestamp` (true of every comment
the service itself persists). -/
def hasTimestamp (c : Comment) : Prop :=
  ∃ ts, objGet c "timestamp" .null = Val.str ts

/-- The `timestamp` field of a comment, defaulting to `""`. -/
def tsOf (c : Comment) : String :=
  match objGet c "timestamp" .null with
  | .str s => s
  | _ => ""

/-- What the GET loop turns a stored comment into, given `elapsed`. -/
def renderTotal (elapsed : String → ℚ) (c : Comment) : Comment :=
  objSet c "time_formatted" (.str (format_time_ago (elapsed (tsOf c))))

/-- The `website` field value stored for a given submitted `website`
JSON value, assuming it is a string or null (app.py line 105). -/
def websiteField : Val → Val
  | .str w => if w = "" then Val.null else Val.str (pyTake (pyStrip w) 200)
  | _ => Val.null

/-- The comment `buildComment` produces when the payload's `author`,
`email`, `text` and `post_id` resolve to the strings `a`, `em`, `t`,
`p` and `website` is a string or null; used to state field-level
properties of successful POSTs. -/
def builtComment (data : Obj) (newId ts a em t p : String) : Comment :=
  [("id", Val.str (pyTake newId 8)),
    ("author", Val.str (pyTake (pyStrip a) 100)),
    ("email", Val.str (pyTake (pyStrip em) 100)),
    ("website", websiteField (objGet data "website" Val.null)),
    ("text", Val.str (pyTake (pyStrip t) 5000)),
    ("timestamp", Val.str ts),
    ("post_id", Val.str (pyTake (pyStrip p) 100)),
    ("parent_id", objGet data "parent_id" Val.null),
    ("approved", Val.bool true)]

/-! ### Concrete inputs used by witnesses and counterexamples -/

/-- The empty store (no persisted file → `load_comments` gives `{}`). -/
def emptyStore : Store := fun _ => []

/-- A constant elapsed-seconds function for concrete GET calls. -/
def zeroElapsed : String → ℚ := fun _ => 0

/-- A valid payload whose `post_id` is a single space: truthy, so
validation passes, but it is stored trimmed to the empty string. -/
def wsPostIdData : Obj :=
  [("author", Val.str "alice"), ("text", Val.str "hi"), ("post_id", Val.str " ")]

/-- The comment `buildComment wsPostIdData "12345678" "2024-01-01T00:00:00"`
produces. -/
def wsPostIdComment : Comment :=
  [("id", Val.str "12345678"),
    ("author", Val.str "alice"),
    ("email", Val.str ""),
    ("website", Val.null),
    ("text", Val.str "hi"),
    ("timestamp", Val.str "2024-01-01T00:00:00"),
    ("post_id", Val.str ""),
    ("parent_id", Val.null),
    ("approved", Val.bool true)]

/-- A fully populated valid payload (fields padded with whitespace). -/
def validData : Obj :=
  [("author", Val.str " Alice "), ("email", Val.str " a@b.example "),
    ("website", Val.str " https://example.com "), ("text", Val.str " Hello world "),
    ("post_id", Val.str " p1 "), ("parent_id", Val.null)]

/-- The comment a POST of `validData` stores (id "12345678",
timestamp "2024-01-01T00:00:00"). -/
def validComment : Comment :=
  builtComment validData "12345678" "2024-01-01T00:00:00" " Alice " " a@b.example "
    " Hello world " " p1 "

/-- A payload that is valid except that `email` is present with the
JSON value `null`. -/
def nullEmailData : Obj :=
  [("author", Val.str "Alice"), ("text", Val.str "hi"),
    ("post_id", Val.str "p1"), ("email", Val.null)]

/-- A payload whose `author` is the empty string. -/
def missingAuthorData : Obj :=
  [("author", Val.str ""), ("text", Val.str "hi"), ("post_id", Val.str "p1")]

/-- A 150-character author name with no surrounding whitespace. -/
def longAuthor : String :=
  ⟨List.replicate 150 'a'⟩

/-- A payload submitting the 150-character author. -/
def longAuthorData : Obj :=
  [("author", Val.str longAuthor), ("text", Val.str "hi"), ("post_id", Val.str "p1")]

/-! ### Helper lemmas for the time formatter -/

lemma pyInt_eq_floor (q : ℚ) (h : 0 ≤ q) : pyInt q = ⌊q⌋ := if_pos h

lemma floor_div_pos (s d : ℚ) (hd : 0 < d) (hs : d ≤ s) : 1 ≤ ⌊s / d⌋ := by
  rw [Int.le_floor]
  push_cast
  exact (one_le_div hd).mpr hs

/-- The pluralisation `'s' if n > 1 else ''` of the source agrees with
the spec's "singular exactly when n = 1" once `1 ≤ n`. -/
lemma plural_str (n : ℤ) (h : 1 ≤ n) :
    (if n > 1 then "s" else "") = (if n = 1 then "" else "s") := by
  rcases eq_or_lt_of_le h with h1 | h1
  · rw [if_neg (by omega), if_pos h1.symm]
  · rw [if_pos h1, if_neg (by omega)]

lemma bucket_str (s d : ℚ) (noun : String) (hd : 0 < d) (hs : d ≤ s) :
    toString (pyInt (s / d)) ++ noun ++ (if pyInt (s / d) > 1 then "s" else "") ++ " ago" =
    toString ⌊s / d⌋ ++ noun ++ (if ⌊s / d⌋ = 1 then "" else "s") ++ " ago" := by
  have h0 : (0 : ℚ) ≤ s / d := div_nonneg (le_trans hd.le hs) hd.le
  rw [pyInt_eq_floor _ h0, plural_str _ (floor_div_pos s d hd hs)]

lemma fta_just_now (s : ℚ) (h : s < 60) : format_time_ago s = "just now" := by
  simp only [format_time_ago]
  rw [if_pos h]

lemma fta_minutes (s : ℚ) (h1 : 60 ≤ s) (h2 : s < 3600) :
    format_time_ago s =
      toString ⌊s / 60⌋ ++ " minute" ++ (if ⌊s / 60⌋ = 1 then "" else "s") ++ " ago" := by
  simp only [format_time_ago]
  rw [if_neg (not_lt.mpr h1), if_pos h2]
  exact bucket_str s 60 " minute" (by norm_num) h1

lemma fta_hours (s : ℚ) (h1 : 3600 ≤ s) (h2 : s < 86400) :
    format_time_ago s =
      toString ⌊s / 3600⌋ ++ " hour" ++ (if ⌊s / 3600⌋ = 1 then "" else "s") ++ " ago" := by
  simp only [format_time_ago]
  rw [if_neg (not_lt.mpr (le_trans (by norm_num) h1)), if_neg (not_lt.mpr h1), if_pos h2]
  exact bucket_str s 3600 " hour" (by norm_num) h1

lemma fta_days (s : ℚ) (h1 : 86400 ≤ s) (h2 : s < 604800) :
    format_time_ago s =
      toString ⌊s / 86400⌋ ++ " day" ++ (if ⌊s / 86400⌋ = 1 then "" else "s") ++ " ago" := by
  simp only [format_time_ago]
  rw [if_neg (not_lt.mpr (le_trans (by norm_num) h1)),
    if_neg (not_lt.mpr (le_trans (by norm_num) h1)), if_neg (not_lt.mpr h1), if_pos h2]
  exact bucket_str s 86400 " day" (by norm_num) h1

lemma fta_weeks (s : ℚ) (h1 : 604800 ≤ s) :
    format_time_ago s =
      toString ⌊s / 604800⌋ ++ " week" ++ (if ⌊s / 604800⌋ = 1 then "" else "s") ++ " ago" := by
  simp only [format_time_ago]
  rw [if_neg (not_lt.mpr (le_trans (by norm_num) h1)),
    if_neg (not_lt.mpr (le_trans (by norm_num) h1)),
    if_neg (not_lt.mpr (le_trans (by norm_num) h1)), if_neg (not_lt.mpr h1)]
  exact bucket_str s 604800 " week" (by norm_num) h1

/-! ### Helper lemmas for the handlers -/

/-- `d.get(k, v)` does not depend on the default when the key is hit. -/
lemma objGet_default_irrel (d : Obj) (k : String) (v v' r : Val)
    (h : objGet d k v = r) (hne : r ≠ v) : objGet d k v' = r := by
  unfold objGet at h ⊢
  cases hf : d.find? (fun p => p.1 == k) with
  | none =>
    rw [hf] at h
    exact absurd (show v = r from h) hne.symm
  | some p =>
    rw [hf] at h
    exact h

/-- Every comment `buildComment` returns has exactly the nine keys, in
construction order. -/
lemma buildComment_keys (data : Obj) (newId ts : String) (c : Comment)
    (h : buildComment data newId ts = .ok c) : c.map Prod.fst = commentKeys := by
  unfold buildComment at h
  repeat' split at h
  all_goals cases h
  all_goals rfl

lemma renderComment_eq (el : String → ℚ) (c : Comment) (h : hasTimestamp c) :
    renderComment el c = some (renderTotal el c) := by
  obtain ⟨ts, hts⟩ := h
  unfold renderComment renderTotal tsOf
  rw [hts]

lemma renderAll_eq (el : String → ℚ) (l : List Comment) (h : ∀ c ∈ l, hasTimestamp c) :
    renderAll el l = some (l.map (renderTotal el)) := by
  induction l with
  | nil => rfl
  | cons c cs ih =>
    unfold renderAll
    rw [renderComment_eq el c (h c (by simp)), ih (fun d hd => h d (by simp [hd]))]
    rfl

lemma cGet_none_of_not_mem (c : Comment) (k : String) (h : k ∉ c.map Prod.fst) :
    cGet c k = none := by
  unfold cGet
  induction c with
  | nil => rfl
  | cons p ps ih =>
    simp only [List.map_cons, List.mem_cons, not_or] at h
    rw [List.find?_cons_of_neg]
    · exact ih h.2
    · exact fun hh => h.1 (eq_of_beq hh).symm

/-- The POST handler after validation passes: the outcome is decided by
`buildComment` (500 on a raised exception, else append and 201). -/
lemma do_POST_valid (data : Obj) (newId ts : String) (store : Store)
    (h1 : truthy (objGet data "author" Val.null) = true)
    (h2 : truthy (objGet data "text" Val.null) = true)
    (h3 : truthy (objGet data "post_id" Val.null) = true) :
    do_POST (some data) newId ts store =
      match buildComment data newId ts with
      | .error e => (.err 500 e, store)
      | .ok c => (.created (objSet c "time_formatted" (.str "just now")),
          storeAppend store (commentPostId c) c) := by
  simp [do_POST, h1, h2, h3]

/-- `buildComment` on a payload whose required and optional fields
resolve to strings (website possibly null) succeeds and produces
`builtComment`. -/
lemma buildComment_spec (data : Obj) (newId ts a em t p : String)
    (ha : objGet data "author" (.str "") = .str a)
    (he : objGet data "email" (.str "") = .str em)
    (ht : objGet data "text" (.str "") = .str t)
    (hp : objGet data "post_id" (.str "") = .str p)
    (hw : objGet data "website" .null = .null ∨ ∃ w, objGet data "website" .null = .str w) :
    buildComment data newId ts = .ok (builtComment data newId ts a em t p) := by
  rcases hw with hnull | ⟨w, hwstr⟩
  · unfold buildComment builtComment
    rw [ha, he, ht, hp, hnull]
    simp [stripVal, truthy, websiteField, hnull]
  · have hw2 : objGet data "website" (.str "") = .str w :=
      objGet_default_irrel _ _ _ _ _ hwstr (by simp)
    unfold buildComment builtComment
    rw [ha, he, ht, hp, hwstr, hw2]
    by_cases hemp : w = ""
    · subst hemp
      simp [stripVal, truthy, websiteField]
    · simp [stripVal, truthy, websiteField, hemp]

/-- Truthiness of a required field that resolves to a non-empty string. -/
lemma truthy_of_str (data : Obj) (k : String) (a : String)
    (h : objGet data k Val.null = .str a) (h2 : a ≠ "") :
    truthy (objGet data k Val.null) = true := by
  rw [h]
  simp [truthy, h2]

end BlogApp

namespace BlogApp

/-- C2: the relative-time buckets of `format_time_ago`: "just now" below
60 seconds, then minutes, hours, days and weeks with `n = floor(s / unit)`
and a singular noun exactly when `n = 1`; concretely 59 s → "just now",
60 s → "1 minute ago", 3599 s → "59 minutes ago", 90 s → "1 minute ago",
7200 s → "2 hours ago". -/
theorem format_time_ago_buckets (s : ℚ) :
    (s < 60 → format_time_ago s = "just now") ∧
    (60 ≤ s → s < 3600 →
      format_time_ago s =
        toString ⌊s / 60⌋ ++ " minute" ++ (if ⌊s / 60⌋ = 1 then "" else "s") ++ " ago") ∧
    (3600 ≤ s → s < 86400 →
      format_time_ago s =
        toString ⌊s / 3600⌋ ++ " hour" ++ (if ⌊s / 3600⌋ = 1 then "" else "s") ++ " ago") ∧
    (86400 ≤ s → s < 604800 →
      format_time_ago s =
        toString ⌊s / 86400⌋ ++ " day" ++ (if ⌊s / 86400⌋ = 1 then "" else "s") ++ " ago") ∧
    (604800 ≤ s →
      format_time_ago s =
        toString ⌊s / 604800⌋ ++ " week" ++ (if ⌊s / 604800⌋ = 1 then "" else "s") ++ " ago") ∧
    format_time_ago 59 = "just now" ∧
    format_time_ago 60 = "1 minute ago" ∧
    format_time_ago 3599 = "59 minutes ago" ∧
    format_time_ago 90 = "1 minute ago" ∧
    format_time_ago 7200 = "2 hours ago" := by
  refine ⟨fta_just_now s, fta_minutes s, fta_hours s, fta_days s, fta_weeks s, ?_, ?_, ?_, ?_, ?_⟩
  · exact fta_just_now 59 (by norm_num)
  · rw [fta_minutes 60 (by norm_num) (by norm_num)]
    have h : ⌊(60 : ℚ) / 60⌋ = 1 := by norm_num
    rw [h]
    rfl
  · rw [fta_minutes 3599 (by norm_num) (by norm_num)]
    have h : ⌊(3599 : ℚ) / 60⌋ = 59 := by norm_num
    rw [h]
    rfl
  · rw [fta_minutes 90 (by norm_num) (by norm_num)]
    have h : ⌊(90 : ℚ) / 60⌋ = 1 := by norm_num
    rw [h]
    rfl
  · rw [fta_hours 7200 (by norm_num) (by norm_num)]
    have h : ⌊(7200 : ℚ) / 3600⌋ = 2 := by norm_num
    rw [h]
    rfl

/-- Witness for C2 at `s = 90`. -/
theorem format_time_ago_buckets_witness :
    (60 : ℚ) ≤ 90 ∧ (90 : ℚ) < 3600 ∧
      format_time_ago 90 =
        toString ⌊(90 : ℚ) / 60⌋ ++ " minute" ++
          (if ⌊(90 : ℚ) / 60⌋ = 1 then "" else "s") ++ " ago" :=
  ⟨by norm_num, by norm_num,
    (format_time_ago_buckets 90).2.1 (by norm_num) (by norm_num)⟩

/-- C1 counterexample: a failure while reading or decoding the request
body (step 1, app.py lines 89-90) happens OUTSIDE the `try` block that
starts at line 92, so the exception propagates out of the handler and
NO response is written — not a 500 response with the exception's
message as the claim states. -/
theorem post_step1_failure_not_500 :
    handlePost (.error "utf-8 decode failure") (fun _ => none) "12345678"
      "2024-01-01T00:00:00" emptyStore = .crashed "utf-8 decode failure" := rfl

/-- C1 amended: any uncaught exception raised inside the `try` block —
steps 2-6: parsing, validating, constructing (modelled: a `.strip()`
call raising during comment construction), appending, persisting —
other than a JSON-decode failure yields a 500 response whose body text
is the exception's message, with the store unchanged; step-1 failures
are excluded (they crash the handler with no response). -/
theorem post_try_exception_500 (body : String) (parse : String → Option Obj)
    (newId ts : String) (store : Store) (data : Obj) (e : String)
    (hparse : parse body = some data)
    (h1 : truthy (objGet data "author" Val.null) = true)
    (h2 : truthy (objGet data "text" Val.null) = true)
    (h3 : truthy (objGet data "post_id" Val.null) = true)
    (hb : buildComment data newId ts = .error e) :
    handlePost (.ok body) parse newId ts store = .response (.err 500 e) store := by
  simp only [handlePost, hparse, do_POST_valid data newId ts store h1 h2 h3, hb]

/-- Witness for the amended C1: a payload with a null `email` makes
comment construction raise; the handler answers 500 with the
exception's message. -/
theorem post_try_exception_500_witness :
    handlePost (.ok "x") (fun _ => some nullEmailData) "12345678" "2024-01-01T00:00:00"
      emptyStore
      = .response (.err 500 "'NoneType' object has no attribute 'strip'") emptyStore :=
  post_try_exception_500 "x" (fun _ => some nullEmailData) "12345678" "2024-01-01T00:00:00"
    emptyStore nullEmailData "'NoneType' object has no attribute 'strip'" rfl
    (by decide) (by decide) (by decide) rfl

/-- C4: a POST whose JSON object has `author`, `text` or `post_id`
absent, empty or otherwise falsy is answered 400 "Missing required
fields" with the store unchanged; in particular an empty-string
`author`. -/
theorem post_missing_fields_400 (data : Obj) (newId ts : String) (store : Store)
    (h : objGet data "author" Val.null = .str ""
      ∨ truthy (objGet data "author" Val.null) = false
      ∨ truthy (objGet data "text" Val.null) = false
      ∨ truthy (objGet data "post_id" Val.null) = false) :
    do_POST (some data) newId ts store = (.err 400 "Missing required fields", store) := by
  have hcond : (!truthy (objGet data "author" Val.null)
      || !truthy (objGet data "text" Val.null)
      || !truthy (objGet data "post_id" Val.null)) = true := by
    rcases h with h | h | h | h
    · rw [h]
      rfl
    · simp [h]
    · simp [h]
    · simp [h]
  simp [do_POST, hcond]

/-- Witness for C4: empty-string `author` → 400. -/
theorem post_missing_fields_400_witness :
    do_POST (some missingAuthorData) "12345678" "2024-01-01T00:00:00" emptyStore
      = (.err 400 "Missing required fields", emptyStore) :=
  post_missing_fields_400 missingAuthorData "12345678" "2024-01-01T00:00:00" emptyStore
    (Or.inl (by decide))

/-- C5: a request body that fails to parse as JSON is answered 400
"Invalid JSON", and the persisted store is unchanged. -/
theorem post_invalid_json_400 (newId ts : String) (store : Store) :
    do_POST none newId ts store = (.err 400 "Invalid JSON", store) := rfl

/-- C9: a valid POST payload whose `email` field is present with value
null is answered 500 (construction calls `.strip()` on `None`, caught
by the generic handler), not 201. -/
theorem post_null_email_500 (data : Obj) (newId ts : String) (store : Store) (a : String)
    (ha : objGet data "author" Val.null = .str a) (ha2 : a ≠ "")
    (h2 : truthy (objGet data "text" Val.null) = true)
    (h3 : truthy (objGet data "post_id" Val.null) = true)
    (hm : objGet data "email" (.str "") = .null) :
    do_POST (some data) newId ts store
      = (.err 500 "'NoneType' object has no attribute 'strip'", store) := by
  have ha' : objGet data "author" (.str "") = .str a :=
    objGet_default_irrel _ _ _ _ _ ha (by simp)
  rw [do_POST_valid data newId ts store (truthy_of_str data "author" a ha ha2) h2 h3]
  unfold buildComment
  rw [ha', hm]
  rfl

/-- Witness for C9. -/
theorem post_null_email_500_witness :
    do_POST (some nullEmailData) "12345678" "2024-01-01T00:00:00" emptyStore
      = (.err 500 "'NoneType' object has no attribute 'strip'", emptyStore) :=
  post_null_email_500 nullEmailData "12345678" "2024-01-01T00:00:00" emptyStore "Alice"
    (by decide) (by decide) (by decide) (by decide) (by decide)

/-- C3 counterexample: the payload author "alice", text "hi", post_id
" " (a single space) passes validation (truthy) and is accepted, but
its post_id is stored stripped to the empty string — and a GET for
post="" falls through to static file serving, so no comments array is
returned and the round trip fails for the stored P. -/
theorem post_get_roundtrip_cex :
    (do_POST (some wsPostIdData) "12345678" "2024-01-01T00:00:00" emptyStore).1
        = .created (objSet wsPostIdComment "time_formatted" (.str "just now"))
    ∧ cGet wsPostIdComment "post_id" = some (.str "")
    ∧ do_GET "/api/comments" (some "")
        ((do_POST (some wsPostIdData) "12345678" "2024-01-01T00:00:00" emptyStore).2)
        zeroElapsed
      = .static := ⟨by decide, by decide, by decide⟩

/-- C3 amended: for every valid POST payload whose stored (stripped,
truncated) post_id `P` is NON-EMPTY, the created comment appears in the
array returned by a subsequent GET for post=P, with author, email,
website, text and post_id stripped of surrounding whitespace and
truncated to 100, 100, 200, 5000 and 100 characters respectively, and
parent_id preserved verbatim. -/
theorem post_get_roundtrip (data : Obj) (newId ts : String) (store : Store)
    (el : String → ℚ) (a em t p : String)
    (ha : objGet data "author" Val.null = .str a) (ha2 : a ≠ "")
    (ht : objGet data "text" Val.null = .str t) (ht2 : t ≠ "")
    (hp : objGet data "post_id" Val.null = .str p) (hp2 : p ≠ "")
    (he : objGet data "email" (.str "") = .str em)
    (hw : objGet data "website" .null = .null ∨ ∃ w, objGet data "website" .null = .str w)
    (hP : pyTake (pyStrip p) 100 ≠ "")
    (hstore : ∀ c ∈ store (pyTake (pyStrip p) 100), hasTimestamp c) :
    do_POST (some data) newId ts store
      = (.created (objSet (builtComment data newId ts a em t p) "time_formatted"
            (.str "just now")),
          storeAppend store (pyTake (pyStrip p) 100) (builtComment data newId ts a em t p))
    ∧ cGet (builtComment data newId ts a em t p) "author"
        = some (.str (pyTake (pyStrip a) 100))
    ∧ cGet (builtComment data newId ts a em t p) "email"
        = some (.str (pyTake (pyStrip em) 100))
    ∧ cGet (builtComment data newId ts a em t p) "website"
        = some (websiteField (objGet data "website" Val.null))
    ∧ cGet (builtComment data newId ts a em t p) "text"
        = some (.str (pyTake (pyStrip t) 5000))
    ∧ cGet (builtComment data newId ts a em t p) "post_id"
        = some (.str (pyTake (pyStrip p) 100))
    ∧ cGet (builtComment data newId ts a em t p) "parent_id"
        = some (objGet data "parent_id" Val.null)
    ∧ do_GET "/api/comments" (some (pyTake (pyStrip p) 100))
        (storeAppend store (pyTake (pyStrip p) 100) (builtComment data newId ts a em t p)) el
        = .ok 200 "application/json" "*"
            ((store (pyTake (pyStrip p) 100) ++ [builtComment data newId ts a em t p]).map
              (renderTotal el))
    ∧ renderTotal el (builtComment data newId ts a em t p)
        ∈ (store (pyTake (pyStrip p) 100) ++ [builtComment data newId ts a em t p]).map
            (renderTotal el) := by
  have ha' : objGet data "author" (.str "") = .str a :=
    objGet_default_irrel _ _ _ _ _ ha (by simp)
  have ht' : objGet data "text" (.str "") = .str t :=
    objGet_default_irrel _ _ _ _ _ ht (by simp)
  have hp' : objGet data "post_id" (.str "") = .str p :=
    objGet_default_irrel _ _ _ _ _ hp (by simp)
  have hb := buildComment_spec data newId ts a em t p ha' he ht' hp' hw
  refine ⟨?_, rfl, rfl, rfl, rfl, rfl, rfl, ?_, ?_⟩
  · rw [do_POST_valid data newId ts store (truthy_of_str data "author" a ha ha2)
      (truthy_of_str data "text" t ht ht2) (truthy_of_str data "post_id" p hp hp2), hb]
    rfl
  · have hts2 : ∀ c ∈ store (pyTake (pyStrip p) 100) ++ [builtComment data newId ts a em t p],
        hasTimestamp c := by
      intro d hd
      rcases List.mem_append.mp hd with hm | hm
      · exact hstore d hm
      · rw [List.mem_singleton] at hm
        subst hm
        exact ⟨ts, rfl⟩
    have happ : storeAppend store (pyTake (pyStrip p) 100)
        (builtComment data newId ts a em t p) (pyTake (pyStrip p) 100)
        = store (pyTake (pyStrip p) 100) ++ [builtComment data newId ts a em t p] := by
      unfold storeAppend
      rw [if_pos rfl]
    unfold do_GET
    rw [if_pos rfl]
    simp only [Option.getD_some]
    rw [if_pos hP, happ, renderAll_eq el _ hts2]
  · exact List.mem_map_of_mem _ (List.mem_append_right _ (List.mem_singleton_self _))

/-- Witness for the amended C3: POSTing `validData` stores the comment
under "p1" and its rendering is in the GET result list. -/
theorem post_get_roundtrip_witness :
    do_POST (some validData) "12345678" "2024-01-01T00:00:00" emptyStore
      = (.created (objSet validComment "time_formatted" (.str "just now")),
          storeAppend emptyStore "p1" validComment)
    ∧ renderTotal zeroElapsed validComment
        ∈ (emptyStore "p1" ++ [validComment]).map (renderTotal zeroElapsed) := by
  have h := post_get_roundtrip validData "12345678" "2024-01-01T00:00:00" emptyStore
    zeroElapsed " Alice " " a@b.example " " Hello world " " p1 "
    (by decide) (by decide) (by decide) (by decide) (by decide) (by decide)
    (by decide) (Or.inr ⟨" https://example.com ", by decide⟩) (by decide)
    (fun c hc => absurd hc (List.not_mem_nil c))
  exact ⟨h.1, h.2.2.2.2.2.2.2.2⟩

/-- C6: on an accepted POST, author, website, text and post_id (and
email) are stripped of surrounding whitespace and truncated to 100,
200, 5000, 100 (and 100) characters before storage; in particular a
150-character author with no surrounding whitespace is stored as
exactly its first 100 characters. -/
theorem post_author_truncation (data : Obj) (newId ts a em t p : String)
    (ha : objGet data "author" (.str "") = .str a)
    (he : objGet data "email" (.str "") = .str em)
    (ht : objGet data "text" (.str "") = .str t)
    (hp : objGet data "post_id" (.str "") = .str p)
    (hw : objGet data "website" .null = .null ∨ ∃ w, objGet data "website" .null = .str w) :
    buildComment data newId ts = .ok (builtComment data newId ts a em t p)
    ∧ cGet (builtComment data newId ts a em t p) "author"
        = some (.str (pyTake (pyStrip a) 100))
    ∧ cGet (builtComment data newId ts a em t p) "website"
        = some (websiteField (objGet data "website" Val.null))
    ∧ cGet (builtComment data newId ts a em t p) "text"
        = some (.str (pyTake (pyStrip t) 5000))
    ∧ cGet (builtComment data newId ts a em t p) "post_id"
        = some (.str (pyTake (pyStrip p) 100))
    ∧ (a.length = 150 → pyStrip a = a →
        cGet (builtComment data newId ts a em t p) "author" = some (.str (pyTake a 100))
        ∧ (pyTake a 100).length = 100) := by
  refine ⟨buildComment_spec data newId ts a em t p ha he ht hp hw, rfl, rfl, rfl, rfl, ?_⟩
  intro h150 hnws
  constructor
  · rw [show cGet (builtComment data newId ts a em t p) "author"
        = some (.str (pyTake (pyStrip a) 100)) from rfl, hnws]
  · show (a.data.take 100).length = 100
    rw [List.length_take]
    have hlen : a.data.length = 150 := h150
    omega

set_option maxRecDepth 2000 in
/-- Witness for C6 at the 150-character author `longAuthor`. -/
theorem post_author_truncation_witness :
    buildComment longAuthorData "12345678" "2024-01-01T00:00:00"
        = .ok (builtComment longAuthorData "12345678" "2024-01-01T00:00:00"
            longAuthor "" "hi" "p1")
    ∧ cGet (builtComment longAuthorData "12345678" "2024-01-01T00:00:00"
          longAuthor "" "hi" "p1") "author"
        = some (.str (pyTake longAuthor 100))
    ∧ (pyTake longAuthor 100).length = 100 := by
  have h := post_author_truncation longAuthorData "12345678" "2024-01-01T00:00:00"
    longAuthor "" "hi" "p1" rfl rfl rfl rfl (Or.inl rfl)
  have h2 := h.2.2.2.2.2 (by decide) (by decide)
  exact ⟨h.1, h2.1, h2.2⟩

/-- C7: a GET to /api/comments with a missing or empty `post` query
parameter falls through to static file serving (no comments array, no
API error); with a non-empty post id whose stored comments all carry a
string timestamp, it answers 200 with the JSON array of the post's
comments (each with `time_formatted` attached), Content-Type
application/json and Access-Control-Allow-Origin *, the array being
empty when the post has no comments. -/
theorem get_comments_routing (store : Store) (el : String → ℚ) (p : String)
    (hp : p ≠ "") (hts : ∀ c ∈ store p, hasTimestamp c) :
    do_GET "/api/comments" none store el = .static
    ∧ do_GET "/api/comments" (some "") store el = .static
    ∧ do_GET "/api/comments" (some p) store el
        = .ok 200 "application/json" "*" ((store p).map (renderTotal el))
    ∧ (store p = [] →
        do_GET "/api/comments" (some p) store el = .ok 200 "application/json" "*" []) := by
  have hmain : do_GET "/api/comments" (some p) store el
      = .ok 200 "application/json" "*" ((store p).map (renderTotal el)) := by
    unfold do_GET
    rw [if_pos rfl]
    simp only [Option.getD_some]
    rw [if_pos hp, renderAll_eq el (store p) hts]
  refine ⟨rfl, rfl, hmain, fun h0 => ?_⟩
  rw [hmain, h0]
  rfl

/-- Witness for C7 at post id "p1" on the empty store. -/
theorem get_comments_routing_witness :
    do_GET "/api/comments" none emptyStore zeroElapsed = .static
    ∧ do_GET "/api/comments" (some "") emptyStore zeroElapsed = .static
    ∧ do_GET "/api/comments" (some "p1") emptyStore zeroElapsed
        = .ok 200 "application/json" "*" ((emptyStore "p1").map (renderTotal zeroElapsed))
    ∧ (emptyStore "p1" = [] →
        do_GET "/api/comments" (some "p1") emptyStore zeroElapsed
          = .ok 200 "application/json" "*" []) :=
  get_comments_routing emptyStore zeroElapsed "p1" (by decide)
    (fun c hc => absurd hc (List.not_mem_nil c))

/-- C8: a successful POST appends the new comment under the key equal
to its own stored post_id, changes no other entry of the mapping, and
preserves the invariant that every comment in a post's list has
post_id equal to the map key. -/
theorem post_preserves_key_invariant (data : Obj) (newId ts : String) (store : Store)
    (k : String) (d : Comment) (c : Comment)
    (h1 : truthy (objGet data "author" Val.null) = true)
    (h2 : truthy (objGet data "text" Val.null) = true)
    (h3 : truthy (objGet data "post_id" Val.null) = true)
    (hb : buildComment data newId ts = .ok c)
    (hinv : ∀ k2, ∀ d2 ∈ store k2, commentPostId d2 = k2) :
    (do_POST (some data) newId ts store).2 (commentPostId c)
        = store (commentPostId c) ++ [c]
    ∧ (k ≠ commentPostId c → (do_POST (some data) newId ts store).2 k = store k)
    ∧ (d ∈ (do_POST (some data) newId ts store).2 k → commentPostId d = k) := by
  have hpost : (do_POST (some data) newId ts store).2
      = storeAppend store (commentPostId c) c := by
    rw [do_POST_valid data newId ts store h1 h2 h3, hb]
  rw [hpost]
  refine ⟨?_, ?_, ?_⟩
  · unfold storeAppend
    rw [if_pos rfl]
  · intro hk
    unfold storeAppend
    rw [if_neg hk]
  · intro hd
    unfold storeAppend at hd
    by_cases hk : k = commentPostId c
    · rw [if_pos hk] at hd
      rcases List.mem_append.mp hd with hm | hm
      · exact (hinv _ d hm).trans hk.symm
      · rw [List.mem_singleton] at hm
        subst hm
        exact hk.symm
    · rw [if_neg hk] at hd
      exact hinv k d hd

/-- Witness for C8: POSTing `validData` into the empty store. -/
theorem post_preserves_key_invariant_witness :
    ((do_POST (some validData) "12345678" "2024-01-01T00:00:00" emptyStore).2
        (commentPostId validComment)
      = emptyStore (commentPostId validComment) ++ [validComment])
    ∧ ("other" ≠ commentPostId validComment →
        (do_POST (some validData) "12345678" "2024-01-01T00:00:00" emptyStore).2 "other"
          = emptyStore "other")
    ∧ (validComment ∈
          (do_POST (some validData) "12345678" "2024-01-01T00:00:00" emptyStore).2 "other"
        → commentPostId validComment = "other") :=
  post_preserves_key_invariant validData "12345678" "2024-01-01T00:00:00" emptyStore
    "other" validComment validComment (by decide) (by decide) (by decide) rfl
    (fun k2 d2 hd2 => absurd hd2 (List.not_mem_nil d2))

/-- C10: the persisted store never acquires a `time_formatted` field:
whatever the POST request is, every comment in the persisted store
after the POST has exactly the nine construction keys (id, author,
email, website, text, timestamp, post_id, parent_id, approved) and no
`time_formatted` key, provided the prior store did; GET handling never
writes the store at all. -/
theorem post_store_only_nine_fields (parsed : Option Obj) (newId ts : String)
    (store : Store) (k : String) (c : Comment)
    (hstore : ∀ k2, ∀ c2 ∈ store k2, c2.map Prod.fst = commentKeys)
    (hc : c ∈ (do_POST parsed newId ts store).2 k) :
    c.map Prod.fst = commentKeys ∧ cGet c "time_formatted" = none := by
  have hkeys : c.map Prod.fst = commentKeys := by
    cases parsed with
    | none => exact hstore k c hc
    | some data =>
      simp only [do_POST] at hc
      by_cases hcond : (!truthy (objGet data "author" Val.null)
          || !truthy (objGet data "text" Val.null)
          || !truthy (objGet data "post_id" Val.null)) = true
      · rw [if_pos hcond] at hc
        exact hstore k c hc
      · rw [if_neg hcond] at hc
        cases hb : buildComment data newId ts with
        | error e =>
          rw [hb] at hc
          exact hstore k c hc
        | ok c2 =>
          rw [hb] at hc
          have hc2 : c ∈ (if k = commentPostId c2
              then store (commentPostId c2) ++ [c2] else store k) := hc
          by_cases hk : k = commentPostId c2
          · rw [if_pos hk] at hc2
            rcases List.mem_append.mp hc2 with hm | hm
            · exact hstore _ c hm
            · rw [List.mem_singleton] at hm
              subst hm
              exact buildComment_keys data newId ts c hb
          · rw [if_neg hk] at hc2
            exact hstore k c hc2
  exact ⟨hkeys, cGet_none_of_not_mem c "time_formatted" (by rw [hkeys]; decide)⟩

/-- Witness for C10: the comment stored by POSTing `validData` has
exactly the nine keys and no `time_formatted`. -/
theorem post_store_only_nine_fields_witness :
    validComment.map Prod.fst = commentKeys
    ∧ cGet validComment "time_formatted" = none :=
  post_store_only_nine_fields (some validData) "12345678" "2024-01-01T00:00:00"
    emptyStore "p1" validComment
    (fun k2 c2 hc2 => absurd hc2 (List.not_mem_nil c2))
    (by decide)

end BlogApp
